import Mathlib

/-!
Verification of the MCP calculator client/server (py-calculator).

The development shallowly embeds the Python sources:
  * `app/infrastructure/mcp_client.py` (class `HttpMCPClient`): the HTTP
    transport/session client — SSE response parsing, the connect handshake,
    disconnect, `tools/list` and `tools/call` with their result
    normalization, and the request-id counter;
  * `app/infrastructure/tool_registry.py` (class `ToolRegistry`): the
    translation of MCP tool schemas to the LLM function-calling format;
  * `app/services/chat_service.py` (`_coerce_numeric_arguments`): numeric
    coercion of string arguments;
  * the server side `calculator/server.py` (`divide`) and
    `calculator/calculator.py` (`Calculator.calculate`, `Division.execute`).

JSON values are modelled by the inductive `JVal`, mirroring what Python's
`json.loads` produces (dicts are association lists in insertion order, with
unique keys; the json module distinguishes int from float).  Calls to
`json.loads` on strings are modelled by an explicit parse oracle
`jloads : String → Option JVal` passed to the embedded functions; `none`
models a raised `json.JSONDecodeError`.  Python floats are modelled exactly
(`PyFloat`: a rational, or the special values inf, -inf, nan); the embedding
does not model IEEE rounding, which none of the verified claims depend on.
Raised Python exceptions are modelled with `Except PyExn`.
-/

/-- Python float values: a finite value (modelled exactly as a rational;
the embedding ignores IEEE-754 rounding) or one of the specials. -/
inductive PyFloat where
  | finite (q : ℚ)
  | inf
  | ninf
  | nan
deriving DecidableEq, Repr

/-- JSON values as produced by Python's `json.loads`: `None`, booleans,
ints, floats, strings, lists, and dicts (association lists in insertion
order; keys produced by the json module are unique). -/
inductive JVal where
  | jnull
  | jbool (b : Bool)
  | jint (n : Int)
  | jfloat (x : PyFloat)
  | jstr (s : String)
  | jarr (elems : List JVal)
  | jobj (fields : List (String × JVal))

/-- Exceptions raised by the embedded Python code. -/
inductive PyExn where
  | mcpConnectionError
  | toolExecutionError
  | typeError
  | attributeError
  | keyError
deriving DecidableEq, Repr

/-- Python dict lookup `d.get(key)` / `d[key]` on a json object,
as an association-list lookup (dict keys are unique). -/
def jgetField : List (String × JVal) → String → Option JVal
  | [], _ => none
  | (k, v) :: rest, key => if k = key then some v else jgetField rest key

/-- Python truthiness (`bool(v)`) of a json value: `None`, `False`, `0`,
`0.0`, `""`, `[]` and `{}` are falsy. -/
def pyFalsy : JVal → Bool
  | .jnull => true
  | .jbool b => !b
  | .jint n => n = 0
  | .jfloat (.finite q) => q = 0
  | .jfloat _ => false
  | .jstr s => s = ""
  | .jarr xs => xs.isEmpty
  | .jobj fs => fs.isEmpty

/-- Python substring test `sub in s` for strings (used by `"content" in x`
when `x` is a str). -/
def strContains (s sub : String) : Bool :=
  1 < (s.splitOn sub).length

/-- Python membership test `key in v` with v a parsed json value:
key lookup on dicts, element equality on lists, substring test on strings;
`in` on the remaining types raises `TypeError`, modelled as `none`. -/
def pyContains (key : String) : JVal → Option Bool
  | .jobj fields => some (jgetField fields key).isSome
  | .jarr xs => some (xs.any fun v =>
      match v with
      | .jstr s => s = key
      | _ => false)
  | .jstr s => some (strContains s key)
  | _ => none

/-- Multiplicity of the factor `p` in `n`, computed with explicit fuel. -/
def pFactorCount (p : Nat) : Nat → Nat → Nat
  | 0, _ => 0
  | fuel + 1, n =>
      if 2 ≤ p ∧ n ≠ 0 ∧ n % p = 0 then 1 + pFactorCount p fuel (n / p) else 0

/-- Left-pad a numeral string with zeros up to width `k`. -/
def padLeftZeros (s : String) (k : Nat) : String :=
  if s.length < k then String.mk (List.replicate (k - s.length) '0') ++ s else s

/-- Drop trailing `'0'` characters. -/
def trimTrailingZeros (s : String) : String :=
  String.mk ((s.toList.reverse.dropWhile fun c => c = '0')).reverse

/-- Python `repr` of a finite float, for values with a terminating decimal
expansion (the only finite floats the embedded code stringifies); other
rationals fall back to a fraction rendering. -/
def pyReprRat (q : ℚ) : String :=
  let n : Nat := q.num.natAbs
  let d : Nat := q.den
  let a2 := pFactorCount 2 d d
  let a5 := pFactorCount 5 d d
  if d = 2 ^ a2 * 5 ^ a5 then
    let k := max a2 a5
    let scaled := n * 2 ^ (k - a2) * 5 ^ (k - a5)
    let ip := scaled / 10 ^ k
    let fracDigits := trimTrailingZeros (padLeftZeros (toString (scaled % 10 ^ k)) k)
    let frac := if fracDigits = "" then "0" else fracDigits
    (if q < 0 then "-" else "") ++ toString ip ++ "." ++ frac
  else
    toString q.num ++ "/" ++ toString d

/-- Python `repr` of a float. -/
def pyReprFloat : PyFloat → String
  | .finite q => pyReprRat q
  | .inf => "inf"
  | .ninf => "-inf"
  | .nan => "nan"

/-- Escape one character the way Python `repr` escapes string contents
(backslash, the quote, and the common control characters). -/
def escChar (c : Char) : String :=
  if c = Char.ofNat 92 then String.mk [Char.ofNat 92, Char.ofNat 92]
  else if c = Char.ofNat 39 then String.mk [Char.ofNat 92, Char.ofNat 39]
  else if c = Char.ofNat 10 then String.mk [Char.ofNat 92, 'n']
  else if c = Char.ofNat 13 then String.mk [Char.ofNat 92, 'r']
  else if c = Char.ofNat 9 then String.mk [Char.ofNat 92, 't']
  else String.mk [c]

/-- Python `repr` of a string: single-quoted with escaping (the
double-quote-preferring corner of CPython repr is not modelled). -/
def pyReprString (s : String) : String :=
  String.mk [Char.ofNat 39] ++ String.join (s.toList.map escChar) ++ String.mk [Char.ofNat 39]

mutual

/-- Python `repr` of a parsed json value (`None`/`True`/`False`, numbers,
quoted strings, lists `[a, b]`, dicts rendered as in CPython). -/
def pyRepr : JVal → String
  | .jnull => "None"
  | .jbool true => "True"
  | .jbool false => "False"
  | .jint n => toString n
  | .jfloat x => pyReprFloat x
  | .jstr s => pyReprString s
  | .jarr xs => "[" ++ pyReprElems xs ++ "]"
  | .jobj fs => "\x7b" ++ pyReprFields fs ++ "\x7d"

/-- Comma-separated `repr` of list elements. -/
def pyReprElems : List JVal → String
  | [] => ""
  | [v] => pyRepr v
  | v :: vs => pyRepr v ++ ", " ++ pyReprElems vs

/-- Comma-separated `repr` of dict entries. -/
def pyReprFields : List (String × JVal) → String
  | [] => ""
  | [(k, v)] => pyReprString k ++ ": " ++ pyRepr v
  | (k, v) :: fs => pyReprString k ++ ": " ++ pyRepr v ++ ", " ++ pyReprFields fs

end

/-- Python `str` of a parsed json value: the string itself for strings,
`repr` otherwise (as `str` and `repr` agree on json containers and
numbers). -/
def pyStr : JVal → String
  | .jstr s => s
  | v => pyRepr v

/-- Characters removed by Python's default `str.strip()` (ASCII whitespace
including vertical tab and form feed). -/
def isPySpace (c : Char) : Bool :=
  c = ' ' ∨ c = Char.ofNat 9 ∨ c = Char.ofNat 10 ∨ c = Char.ofNat 13 ∨
    c = Char.ofNat 11 ∨ c = Char.ofNat 12

/-- Python `str.strip()` on a character list: drop leading and trailing
whitespace. -/
def pyStripL (cs : List Char) : List Char :=
  ((cs.dropWhile isPySpace).reverse.dropWhile isPySpace).reverse

/-- Python `text.split(c)` for the single separator newline: split into
lines, keeping empty pieces. -/
def splitLines : List Char → List (List Char)
  | [] => [[]]
  | c :: rest =>
      if c = Char.ofNat 10 then [] :: splitLines rest
      else
        match splitLines rest with
        | l :: ls => (c :: l) :: ls
        | [] => [[c]]

/-- Python `line.startswith(pat)` on character lists (pattern first). -/
def listStartsWith : List Char → List Char → Bool
  | [], _ => true
  | _ :: _, [] => false
  | p :: ps, c :: cs => p = c && listStartsWith ps cs

/-- The characters of the SSE data-line marker. -/
def dataMarker : List Char := ['d', 'a', 't', 'a', ':', ' ']

/-- `HttpMCPClient._parse_sse_response` (mcp_client.py lines 272-289):
strip the body, scan its lines for the first one starting with the data
marker and json-decode the remainder of that line; if no such line exists,
json-decode the entire body.  `jloads` is the `json.loads` oracle; `none`
models the raised `json.JSONDecodeError`. -/
def parseSseResponse (jloads : String → Option JVal) (text : String) : Option JVal :=
  match (splitLines (pyStripL text.toList)).find? (fun l => listStartsWith dataMarker l) with
  | some line => jloads (String.mk (line.drop 6))
  | none => jloads text

/-- Helper for the Python membership test `"content" in tool_result` when
`tool_result` is a list: list elements equal to the string. -/
def isContentString : JVal → Bool
  | .jstr s => s = "content"
  | _ => false

/-- `HttpMCPClient.call_tool`, normalization of the parsed response
envelope (mcp_client.py lines 398-423).  The envelope `env` is the value
returned by `_parse_sse_response`.  Mirrors the Python control flow:

  * `if "error" in result`: return `{"error": error.get("message",
    str(error))}` — note `.get` on a non-dict error value raises
    `AttributeError`, and subscripting a non-dict envelope raises
    `TypeError`; both land in the blanket `except` and re-raise
    as `ToolExecutionError`;
  * `tool_result = result.get("result", {})` (`.get` on a non-dict
    envelope raises `AttributeError`);
  * `if "content" in tool_result`: when content is a non-empty list whose
    first element is a dict carrying `"text"`, json-decode the text
    (`json.loads` of a non-str raises `TypeError`), returning the decoded
    value or `{"result": text}` on decode failure; a first element without
    usable text yields `{"result": str(first)}`; an empty list or non-list
    content yields `{"result": str(content)}`;
  * otherwise return `tool_result` verbatim. -/
def callToolNormalize (jloads : String → Option JVal) (env : JVal) : Except PyExn JVal :=
  match pyContains "error" env with
  | none => .error .toolExecutionError
  | some true =>
    match env with
    | .jobj fields =>
      match jgetField fields "error" with
      | some (.jobj efields) =>
          .ok (.jobj [("error", (jgetField efields "message").getD (.jstr (pyStr (.jobj efields))))])
      | some _ => .error .toolExecutionError
      | none => .error .toolExecutionError
    | _ => .error .toolExecutionError
  | some false =>
    match env with
    | .jobj fields =>
      let toolResult := (jgetField fields "result").getD (.jobj [])
      match toolResult with
      | .jobj rf =>
        match jgetField rf "content" with
        | some content =>
          match content with
          | .jarr (first :: _) =>
            match first with
            | .jobj ff =>
              match jgetField ff "text" with
              | some (.jstr t) =>
                match jloads t with
                | some v => .ok v
                | none => .ok (.jobj [("result", .jstr t)])
              | some _ => .error .toolExecutionError
              | none => .ok (.jobj [("result", .jstr (pyStr first))])
            | _ => .ok (.jobj [("result", .jstr (pyStr first))])
          | .jarr [] => .ok (.jobj [("result", .jstr (pyStr content))])
          | _ => .ok (.jobj [("result", .jstr (pyStr content))])
        | none => .ok toolResult
      | .jarr xs => if xs.any isContentString then .error .toolExecutionError else .ok toolResult
      | .jstr s => if strContains s "content" then .error .toolExecutionError else .ok toolResult
      | _ => .error .toolExecutionError
    | _ => .error .toolExecutionError

/-- One entry of the `tools/list` comprehension (mcp_client.py lines
330-337): `{"name": tool["name"], "description": tool.get("description",
""), "inputSchema": tool.get("inputSchema", {})}`.  Subscripting a
non-dict raises `TypeError`; a missing name raises `KeyError`; both are
swallowed by the blanket `except` of `list_tools`, which re-raises
`MCPConnectionError`. -/
def listToolEntry : JVal → Except PyExn JVal
  | .jobj tf =>
    match jgetField tf "name" with
    | some nv => .ok (.jobj
        [("name", nv),
         ("description", (jgetField tf "description").getD (.jstr "")),
         ("inputSchema", (jgetField tf "inputSchema").getD (.jobj []))])
    | none => .error .mcpConnectionError
  | _ => .error .mcpConnectionError

/-- The `for tool in tools_data` comprehension over the list. -/
def listToolEntries : List JVal → Except PyExn (List JVal)
  | [] => .ok []
  | t :: ts =>
    match listToolEntry t with
    | .error e => .error e
    | .ok v =>
      match listToolEntries ts with
      | .error e => .error e
      | .ok vs => .ok (v :: vs)

/-- Python iteration of `tools_data` (which `result.get` may have produced
as any json value): lists iterate their elements; iterating a dict yields
its keys (strings, which the comprehension then fails to subscript unless
the dict is empty); iterating a string yields characters (same failure
unless empty); other values are not iterable (`TypeError`).  Every raised
exception surfaces as `MCPConnectionError` in `list_tools`. -/
def listToolsData : JVal → Except PyExn (List JVal)
  | .jarr ts => listToolEntries ts
  | .jobj [] => .ok []
  | .jobj _ => .error .mcpConnectionError
  | .jstr s => if s = "" then .ok [] else .error .mcpConnectionError
  | _ => .error .mcpConnectionError

/-- `HttpMCPClient.list_tools`, normalization of the parsed response
envelope (mcp_client.py lines 325-337): a top-level `error` raises
`MCPConnectionError`; otherwise `tools_data = result.get("result",
\x7b\x7d).get("tools", [])` and the per-tool comprehension runs over it.
All exceptions are wrapped as `MCPConnectionError`. -/
def listToolsNormalize (env : JVal) : Except PyExn (List JVal) :=
  match pyContains "error" env with
  | none => .error .mcpConnectionError
  | some true => .error .mcpConnectionError
  | some false =>
    match env with
    | .jobj fields =>
      match (jgetField fields "result").getD (.jobj []) with
      | .jobj rf => listToolsData ((jgetField rf "tools").getD (.jarr []))
      | _ => .error .mcpConnectionError
    | _ => .error .mcpConnectionError

/-- Mutable state of an `HttpMCPClient` instance (`__init__`, mcp_client.py
lines 176-186): whether `_client` holds an open `httpx.AsyncClient`
(the handle itself is opaque to the model), `_session_id`, `_tools_cache`
and the `_request_id` counter (0 at construction). -/
structure ClientState where
  client : Bool
  sessionId : Option String
  toolsCache : Option (List JVal)
  requestId : Nat

/-- The state of a freshly constructed `HttpMCPClient`. -/
def initClientState : ClientState :=
  ClientState.mk false none none 0

/-- Outcome of one `httpx` POST, supplied by the environment: either the
transport raised (`httpx.HTTPError`: timeout, refused connection, ...) or a
response arrived with a status code, the optional `mcp-session-id` header,
and a body text.  The request payload itself is not part of the wire
model; the behaviours of the remote end are quantified over by quantifying
over scripts. -/
inductive PostOutcome where
  | raised
  | response (status : Nat) (sessionHeader : Option String) (body : String)
deriving DecidableEq, Repr

/-- Result of running one client operation: the returned value or raised
exception, the successor state, the remaining script of POST outcomes, and
the JSON-RPC ids the operation attached to outbound requests (in order). -/
structure OpResult (α : Type) where
  res : Except PyExn α
  state : ClientState
  script : List PostOutcome
  ids : List Nat

/-- `httpx.Response.raise_for_status` raises unless the status is 2xx. -/
def statusOk (status : Nat) : Bool :=
  200 ≤ status ∧ status < 300

/-- `HttpMCPClient.connect` (mcp_client.py lines 188-253).  In order:
create the `httpx` client; build the `initialize` request with
`id = self._next_request_id()` (the counter increments even if the
exchange later fails); POST it; `raise_for_status`; store the
`mcp-session-id` header into `_session_id` and fail if it is missing or
empty; parse the SSE body; fail if the parsed envelope carries `error`;
then POST the `notifications/initialized` notification (no id, and its
response status is not checked).  Every exception inside the `try` —
including a transport error while sending the notification — is re-raised
as `MCPConnectionError`. -/
def connectFn (jloads : String → Option JVal) (s : ClientState) (w : List PostOutcome) :
    OpResult Unit :=
  let s1 : ClientState := { s with client := true, requestId := s.requestId + 1 }
  let rid := s1.requestId
  match w with
  | [] => OpResult.mk (.error .mcpConnectionError) s1 [] [rid]
  | .raised :: w1 => OpResult.mk (.error .mcpConnectionError) s1 w1 [rid]
  | .response status hdr body :: w1 =>
    if statusOk status then
      let s2 : ClientState := { s1 with sessionId := hdr }
      match hdr with
      | none => OpResult.mk (.error .mcpConnectionError) s2 w1 [rid]
      | some sid =>
        if sid = "" then OpResult.mk (.error .mcpConnectionError) s2 w1 [rid]
        else
          match parseSseResponse jloads body with
          | none => OpResult.mk (.error .mcpConnectionError) s2 w1 [rid]
          | some env =>
            match pyContains "error" env with
            | none => OpResult.mk (.error .mcpConnectionError) s2 w1 [rid]
            | some true => OpResult.mk (.error .mcpConnectionError) s2 w1 [rid]
            | some false =>
              match w1 with
              | [] => OpResult.mk (.error .mcpConnectionError) s2 [] [rid]
              | .raised :: w2 => OpResult.mk (.error .mcpConnectionError) s2 w2 [rid]
              | .response _ _ _ :: w2 => OpResult.mk (.ok ()) s2 w2 [rid]
    else OpResult.mk (.error .mcpConnectionError) s1 w1 [rid]

/-- `HttpMCPClient.disconnect` (mcp_client.py lines 255-265): if `_client`
is set, close it and null out `_client` and `_session_id`; otherwise do
nothing.  `_tools_cache` and `_request_id` are not touched.  The `aclose`
call is modelled as succeeding (its failure is caught and only logged). -/
def disconnectFn (s : ClientState) : ClientState :=
  if s.client then { s with client := false, sessionId := none } else s

/-- The connectivity guard of `list_tools`/`call_tool`:
`if not self._client or not self._session_id` (an empty-string session id
is falsy in Python). -/
def notConnected (s : ClientState) : Bool :=
  s.client = false ∨ s.sessionId = none ∨ s.sessionId = some ""

/-- `HttpMCPClient.list_tools` (mcp_client.py lines 291-347): raise
`MCPConnectionError` when not connected; return `_tools_cache` when it is
set (no POST, no request id); otherwise build a `tools/list` request with
the next id, POST it, `raise_for_status`, parse the SSE body, normalize
the envelope, and cache the resulting list.  All exceptions inside the
`try` are re-raised as `MCPConnectionError`. -/
def listToolsFn (jloads : String → Option JVal) (s : ClientState) (w : List PostOutcome) :
    OpResult (List JVal) :=
  if notConnected s then OpResult.mk (.error .mcpConnectionError) s w []
  else
    match s.toolsCache with
    | some cache => OpResult.mk (.ok cache) s w []
    | none =>
      let s1 : ClientState := { s with requestId := s.requestId + 1 }
      let rid := s1.requestId
      match w with
      | [] => OpResult.mk (.error .mcpConnectionError) s1 [] [rid]
      | .raised :: w1 => OpResult.mk (.error .mcpConnectionError) s1 w1 [rid]
      | .response status _ body :: w1 =>
        if statusOk status then
          match parseSseResponse jloads body with
          | none => OpResult.mk (.error .mcpConnectionError) s1 w1 [rid]
          | some env =>
            match listToolsNormalize env with
            | .error _ => OpResult.mk (.error .mcpConnectionError) s1 w1 [rid]
            | .ok tools =>
                OpResult.mk (.ok tools) { s1 with toolsCache := some tools } w1 [rid]
        else OpResult.mk (.error .mcpConnectionError) s1 w1 [rid]

/-- `HttpMCPClient.call_tool` (mcp_client.py lines 349-430): raise
`MCPConnectionError` when not connected (outside the `try`); otherwise
build a `tools/call` request with the next id (the `name` and `arguments`
go into the request payload, which is outside the wire model), POST it,
`raise_for_status`, parse the SSE body, and normalize the envelope with
`callToolNormalize`.  Transport errors and parse failures are re-raised as
`ToolExecutionError`. -/
def callToolFn (jloads : String → Option JVal) (_nm : String) (_args : JVal)
    (s : ClientState) (w : List PostOutcome) : OpResult JVal :=
  if notConnected s then OpResult.mk (.error .mcpConnectionError) s w []
  else
    let s1 : ClientState := { s with requestId := s.requestId + 1 }
    let rid := s1.requestId
    match w with
    | [] => OpResult.mk (.error .toolExecutionError) s1 [] [rid]
    | .raised :: w1 => OpResult.mk (.error .toolExecutionError) s1 w1 [rid]
    | .response status _ body :: w1 =>
      if statusOk status then
        match parseSseResponse jloads body with
        | none => OpResult.mk (.error .toolExecutionError) s1 w1 [rid]
        | some env => OpResult.mk (callToolNormalize jloads env) s1 w1 [rid]
      else OpResult.mk (.error .toolExecutionError) s1 w1 [rid]

/-- One public operation on the client. -/
inductive ClientOp where
  | connectOp
  | disconnectOp
  | listToolsOp
  | callToolOp (nm : String) (args : JVal)

/-- Run one operation, keeping state, remaining script, and the ids it
attached to outbound requests. -/
def applyOp (jloads : String → Option JVal) :
    ClientOp → ClientState → List PostOutcome → ClientState × List PostOutcome × List Nat
  | .connectOp, s, w =>
      let r := connectFn jloads s w
      (r.state, r.script, r.ids)
  | .disconnectOp, s, w => (disconnectFn s, w, [])
  | .listToolsOp, s, w =>
      let r := listToolsFn jloads s w
      (r.state, r.script, r.ids)
  | .callToolOp nm args, s, w =>
      let r := callToolFn jloads nm args s w
      (r.state, r.script, r.ids)

/-- Result of running a sequence of operations: final state, remaining
script, and the concatenated request-id log. -/
structure RunResult where
  state : ClientState
  script : List PostOutcome
  ids : List Nat

/-- Run a sequence of operations on one client instance, accumulating the
request ids attached to outbound requests in order. -/
def runOps (jloads : String → Option JVal) :
    List ClientOp → ClientState → List PostOutcome → RunResult
  | [], s, w => RunResult.mk s w []
  | op :: ops, s, w =>
    match applyOp jloads op s w with
    | (s1, w1, ids1) =>
      let r := runOps jloads ops s1 w1
      RunResult.mk r.state r.script (ids1 ++ r.ids)

/-- Helper for the Python membership test `"description" in prop` on a
list-valued property schema. -/
def isDescriptionString : JVal → Bool
  | .jstr s => s = "description"
  | _ => false

/-- `ToolRegistry._transform_input_schema`, per-property step
(tool_registry.py lines 114-120): `enhanced_prop = prop_schema.copy()`,
then synthesize `"The <name> parameter"` as the description when the key
is absent (appended, as dicts keep insertion order); a property that
already carries a description is returned unmodified.  A non-dict property
schema fails: `copy` is missing on most types (`AttributeError`), and a
list copies but then either skips the assignment (when it contains the
string `"description"`) or fails to subscript (`TypeError`). -/
def transformProp (nm : String) : JVal → Except PyExn JVal
  | .jobj fields =>
      if (jgetField fields "description").isSome then .ok (.jobj fields)
      else .ok (.jobj (fields ++ [("description", .jstr ("The " ++ nm ++ " parameter"))]))
  | .jarr xs =>
      if xs.any isDescriptionString then .ok (.jarr xs) else .error .typeError
  | _ => .error .attributeError

/-- The `for prop_name, prop_schema in properties.items()` loop
(tool_registry.py lines 114-120), building `enhanced_properties` in order;
a raised exception propagates. -/
def transformProps : List (String × JVal) → Except PyExn (List (String × JVal))
  | [] => .ok []
  | (nm, sch) :: rest =>
    match transformProp nm sch with
    | .error e => .error e
    | .ok v =>
      match transformProps rest with
      | .error e => .error e
      | .ok vs => .ok ((nm, v) :: vs)

/-- `ToolRegistry._transform_input_schema` (tool_registry.py lines
99-126): a falsy `input_schema` (empty or defaulted-absent) yields the
fixed empty parameters object; otherwise the properties dict is enhanced
per property and `required` is copied verbatim, defaulting to `[]`.
`.get`/`.items` on non-dict values raise `AttributeError`. -/
def transformInputSchema (inputSchema : JVal) : Except PyExn JVal :=
  if pyFalsy inputSchema then
    .ok (.jobj [("type", .jstr "object"), ("properties", .jobj []), ("required", .jarr [])])
  else
    match inputSchema with
    | .jobj fields =>
      match (jgetField fields "properties").getD (.jobj []) with
      | .jobj pfields =>
        match transformProps pfields with
        | .error e => .error e
        | .ok eps => .ok (.jobj
            [("type", .jstr "object"),
             ("properties", .jobj eps),
             ("required", (jgetField fields "required").getD (.jarr []))])
      | _ => .error .attributeError
    | _ => .error .attributeError

/-- One iteration of `ToolRegistry.to_ollama_format` (tool_registry.py
lines 85-94): `{"type": "function", "function": {"name": tool["name"],
"description": tool.get("description", ""), "parameters":
transform(tool.get("inputSchema", \x7b\x7d))}}`.  `tool["name"]` on a
dict without a name raises `KeyError`; a non-dict tool raises. -/
def toOllamaTool : JVal → Except PyExn JVal
  | .jobj tf =>
    match jgetField tf "name" with
    | some nv =>
      match transformInputSchema ((jgetField tf "inputSchema").getD (.jobj [])) with
      | .error e => .error e
      | .ok params => .ok (.jobj
          [("type", .jstr "function"),
           ("function", .jobj
             [("name", nv),
              ("description", (jgetField tf "description").getD (.jstr "")),
              ("parameters", params)])])
    | none => .error .keyError
  | _ => .error .typeError

/-- `ToolRegistry.to_ollama_format` (tool_registry.py lines 77-97): the
loop over `self._tools.values()` (the registered tool definitions in
insertion order). -/
def toOllamaFormat : List JVal → Except PyExn (List JVal)
  | [] => .ok []
  | t :: ts =>
    match toOllamaTool t with
    | .error e => .error e
    | .ok v =>
      match toOllamaFormat ts with
      | .error e => .error e
      | .ok vs => .ok (v :: vs)

/-- ASCII digit test. -/
def isAsciiDigit (c : Char) : Bool :=
  '0' ≤ c ∧ c ≤ '9'

/-- Tail of a Python numeric digit group: digits with single underscores
allowed between digits (no trailing or doubled underscore). -/
def udTail : List Char → Bool
  | [] => true
  | ['_'] => false
  | '_' :: c :: rest => isAsciiDigit c && udTail rest
  | c :: rest => isAsciiDigit c && udTail rest

/-- A valid Python digit group: nonempty, starts with a digit, single
underscores only between digits. -/
def validDigitGroup : List Char → Bool
  | [] => false
  | c :: rest => isAsciiDigit c && udTail rest

/-- Numeric value of a digit group (underscores skipped). -/
def digitsValue (cs : List Char) : Nat :=
  (cs.filter isAsciiDigit).foldl (fun a c => a * 10 + (c.toNat - 48)) 0

/-- Python's `int(s)` on a string (base 10): strip whitespace, optional
sign, then one digit group; anything else raises `ValueError`, modelled as
`none`.  (Non-ASCII digits accepted by CPython are not modelled.) -/
def pyIntOfString (s : String) : Option Int :=
  match pyStripL s.toList with
  | '+' :: rest => if validDigitGroup rest then some (Int.ofNat (digitsValue rest)) else none
  | '-' :: rest => if validDigitGroup rest then some (-Int.ofNat (digitsValue rest)) else none
  | cs => if validDigitGroup cs then some (Int.ofNat (digitsValue cs)) else none

/-- Split a character list on a separator character, keeping empty
pieces (Python `str.split(sep)`). -/
def splitOnChar (sep : Char) : List Char → List (List Char)
  | [] => [[]]
  | c :: rest =>
      if c = sep then [] :: splitOnChar sep rest
      else
        match splitOnChar sep rest with
        | l :: ls => (c :: l) :: ls
        | [] => [[c]]

/-- Number of digits in a fractional digit group (underscores skipped). -/
def fracLen (cs : List Char) : Nat :=
  (cs.filter isAsciiDigit).length

/-- The mantissa of a Python float literal: `digits`, `digits.`,
`.digits`, or `digits.digits` (each group with Python underscore rules). -/
def parseMantissa (cs : List Char) : Option ℚ :=
  match splitOnChar '.' cs with
  | [a] => if validDigitGroup a then some ((digitsValue a : ℚ)) else none
  | [a, b] =>
      if a = [] then
        if validDigitGroup b then
          some ((digitsValue b : ℚ) / 10 ^ fracLen b)
        else none
      else if b = [] then
        if validDigitGroup a then some ((digitsValue a : ℚ)) else none
      else
        if validDigitGroup a ∧ validDigitGroup b then
          some ((digitsValue a : ℚ) + (digitsValue b : ℚ) / 10 ^ fracLen b)
        else none
  | _ => none

/-- The signed exponent of a Python float literal. -/
def parseExp (cs : List Char) : Option Int :=
  match cs with
  | '+' :: r => if validDigitGroup r then some (Int.ofNat (digitsValue r)) else none
  | '-' :: r => if validDigitGroup r then some (-Int.ofNat (digitsValue r)) else none
  | r => if validDigitGroup r then some (Int.ofNat (digitsValue r)) else none

/-- Python's `float(s)` on a string: strip whitespace, optional sign, then
`inf`/`infinity`/`nan` (case-insensitive) or a decimal mantissa with an
optional `e`/`E` exponent; anything else raises `ValueError`, modelled as
`none`.  Finite values are exact rationals (overflow of huge exponents to
IEEE infinity is not modelled; no verified claim depends on it). -/
def pyFloatOfString (s : String) : Option PyFloat :=
  let stripped := pyStripL s.toList
  let signed : Bool × List Char :=
    match stripped with
    | '+' :: r => (false, r)
    | '-' :: r => (true, r)
    | r => (false, r)
  let neg := signed.1
  let lower := signed.2.map Char.toLower
  if lower = ['i', 'n', 'f'] ∨ lower = ['i', 'n', 'f', 'i', 'n', 'i', 't', 'y'] then
    some (if neg then .ninf else .inf)
  else if lower = ['n', 'a', 'n'] then some .nan
  else
    match splitOnChar 'e' lower with
    | [m] => (parseMantissa m).map fun q => .finite (if neg then -q else q)
    | [m, e] =>
      match parseMantissa m, parseExp e with
      | some q, some z => some (.finite ((if neg then -q else q) * (10 : ℚ) ^ z))
      | _, _ => none
    | _ => none

/-- `ChatService._coerce_numeric_arguments`, per-value step
(chat_service.py lines 189-200): a string value is coerced with `int()`
first, then `float()`, else left as the string; every non-string value
passes through unchanged.  Total: the Python code catches both
`ValueError`s and cannot raise. -/
def coerceValue (v : JVal) : JVal :=
  match v with
  | .jstr s =>
    match pyIntOfString s with
    | some n => .jint n
    | none =>
      match pyFloatOfString s with
      | some f => .jfloat f
      | none => .jstr s
  | v => v

/-- `ChatService._coerce_numeric_arguments` (chat_service.py lines
176-201): rebuild the argument dict, coercing each value; keys and their
order are preserved. -/
def coerceNumericArguments (args : List (String × JVal)) : List (String × JVal) :=
  args.map fun kv => (kv.1, coerceValue kv.2)

/-- `Calculator.calculate` (calculator.py lines 57-82) composed with the
`Operation.execute` implementations (lines 20-44): dispatch on the
operation name (an unknown name raises `ValueError`), with
`Division.execute` raising `ValueError("Cannot divide by zero")` when
`b == 0`.  Numbers are modelled as exact rationals; `.error` carries the
`ValueError` message. -/
def calculatorCalculate (operation : String) (a b : ℚ) : Except String ℚ :=
  if operation = "add" then .ok (a + b)
  else if operation = "subtract" then .ok (a - b)
  else if operation = "multiply" then .ok (a * b)
  else if operation = "divide" then
    if b = 0 then .error "Cannot divide by zero" else .ok (a / b)
  else .error ("Unknown operation: " ++ operation)

/-- The `divide` tool of the MCP server (server.py lines 122-138): when
either argument is `None` (absent), return the missing-argument error
payload; otherwise run `calculator.calculate("divide", a, b)`, returning
`{"result": a / b}` or — when the `ValueError` is caught — `{"error":
str(e)}`.  The function returns a payload in every case; it raises no
exception.  (The telemetry counters are out of scope.) -/
def serverDivide (a b : Option ℚ) : JVal :=
  match a, b with
  | some x, some y =>
    match calculatorCalculate "divide" x y with
    | .ok r => .jobj [("result", .jfloat (.finite r))]
    | .error msg => .jobj [("error", .jstr msg)]
  | _, _ => .jobj [("error", .jstr "Both numbers are required for division")]

/-- A concrete `json.loads` oracle used by the closed witness and
counterexample statements: decodes the handful of JSON texts those
statements mention and fails on everything else. -/
def jloadsStub (s : String) : Option JVal :=
  if s = "\x7b\x7d" then some (.jobj [])
  else if s = "\x7b\"result\": 4\x7d" then some (.jobj [("result", .jint 4)])
  else if s = "\x7b\"result\":\x7b\"tools\":[]\x7d\x7d" then
    some (.jobj [("result", .jobj [("tools", .jarr [])])])
  else if s = "\x7b\"x\":1\x7d" then some (.jobj [("x", .jint 1)])
  else none

/-- A `json.loads` oracle that always fails, for statements whose truth
does not depend on inner decoding. -/
def jloadsNone : String → Option JVal := fun _ => none


lemma string_toList_append (a b : String) : (a ++ b).toList = a.toList ++ b.toList := rfl

lemma string_mk_toList (s : String) : String.mk s.toList = s := rfl

lemma dropWhile_eq_self_of_pyStrip (cs : List Char) (h : pyStripL cs = cs) :
    cs.dropWhile isPySpace = cs := by
  have hs : cs.dropWhile isPySpace <:+ cs := List.dropWhile_suffix _
  refine hs.eq_of_length ?_
  have h1 : (pyStripL cs).length ≤ (cs.dropWhile isPySpace).length := by
    unfold pyStripL
    calc (((cs.dropWhile isPySpace).reverse.dropWhile isPySpace).reverse).length
        = ((cs.dropWhile isPySpace).reverse.dropWhile isPySpace).length := by
          rw [List.length_reverse]
      _ ≤ (cs.dropWhile isPySpace).reverse.length := (List.dropWhile_suffix _).length_le
      _ = (cs.dropWhile isPySpace).length := by rw [List.length_reverse]
  have h2 : cs.length = (pyStripL cs).length := by rw [h]
  have h3 : (cs.dropWhile isPySpace).length ≤ cs.length := hs.length_le
  omega

lemma reverse_dropWhile_eq_self_of_pyStrip (cs : List Char) (h : pyStripL cs = cs) :
    cs.reverse.dropWhile isPySpace = cs.reverse := by
  have h0 := dropWhile_eq_self_of_pyStrip cs h
  have h1 : pyStripL cs = (cs.reverse.dropWhile isPySpace).reverse := by
    unfold pyStripL; rw [h0]
  rw [h] at h1
  have := congrArg List.reverse h1
  simpa using this.symm

lemma head_not_pySpace (c : Char) (t : List Char)
    (h : List.dropWhile isPySpace (c :: t) = c :: t) : isPySpace c = false := by
  by_contra hc
  have hc' : isPySpace c = true := by
    cases hx : isPySpace c with
    | true => rfl
    | false => exact absurd hx hc
  rw [List.dropWhile_cons, hc'] at h
  simp at h
  have h3 : (List.dropWhile isPySpace t).length ≤ t.length :=
    (List.dropWhile_suffix _).length_le
  have h2 := congrArg List.length h
  simp at h2
  omega

lemma splitLines_of_no_newline (cs : List Char) (h : Char.ofNat 10 ∉ cs) :
    splitLines cs = [cs] := by
  induction cs with
  | nil => rfl
  | cons c t ih =>
    have hc : ¬ c = Char.ofNat 10 := fun he => h (he ▸ List.mem_cons_self c t)
    have ht : Char.ofNat 10 ∉ t := fun hm => h (List.mem_cons_of_mem c hm)
    rw [splitLines, if_neg hc, ih ht]

lemma splitLines_append_newline (xs ys : List Char) (h : Char.ofNat 10 ∉ xs) :
    splitLines (xs ++ Char.ofNat 10 :: ys) = xs :: splitLines ys := by
  induction xs with
  | nil => simp [splitLines]
  | cons c t ih =>
    have hc : ¬ c = Char.ofNat 10 := fun he => h (he ▸ List.mem_cons_self c t)
    have ht : Char.ofNat 10 ∉ t := fun hm => h (List.mem_cons_of_mem c hm)
    rw [List.cons_append, splitLines, if_neg hc, ih ht]

lemma listStartsWith_append_self (xs ys : List Char) :
    listStartsWith xs (xs ++ ys) = true := by
  induction xs with
  | nil => rfl
  | cons c t ih => simp [listStartsWith, ih]

lemma pyStripL_framed (p : List Char) (hne : p ≠ [])
    (hstrip : pyStripL p = p) :
    pyStripL (("event: message\ndata: ").toList ++ p ++ [Char.ofNat 10, Char.ofNat 10]) =
      ("event: message\ndata: ").toList ++ p := by
  have hrev : p.reverse.dropWhile isPySpace = p.reverse :=
    reverse_dropWhile_eq_self_of_pyStrip p hstrip
  obtain ⟨c, t, hct⟩ : ∃ c t, p.reverse = c :: t := by
    cases hp : p.reverse with
    | nil => exact absurd (by simpa using congrArg List.reverse hp) hne
    | cons c t => exact ⟨c, t, rfl⟩
  have hc : isPySpace c = false := head_not_pySpace c t (hct ▸ hrev)
  unfold pyStripL
  have h1 : (("event: message\ndata: ").toList ++ p ++
      [Char.ofNat 10, Char.ofNat 10]).dropWhile isPySpace =
      ("event: message\ndata: ").toList ++ p ++ [Char.ofNat 10, Char.ofNat 10] := by
    show List.dropWhile isPySpace ('e' :: (("vent: message\ndata: ").toList ++ p ++
      [Char.ofNat 10, Char.ofNat 10])) = _
    rw [List.dropWhile_cons, if_neg (by decide)]
    rfl
  rw [h1]
  have h2 : (("event: message\ndata: ").toList ++ p ++
      [Char.ofNat 10, Char.ofNat 10]).reverse =
      Char.ofNat 10 :: Char.ofNat 10 :: (p.reverse ++ ("event: message\ndata: ").toList.reverse) := by
    simp
  rw [h2, List.dropWhile_cons, if_pos (by decide), List.dropWhile_cons, if_pos (by decide)]
  rw [hct, List.cons_append, List.dropWhile_cons, hc]
  simp only [Bool.false_eq_true, if_neg, ite_false]
  have h3 := congrArg List.reverse hct
  simp at h3
  simp [h3]

/-- Claim C6: for every single-line, stripped JSON payload p (not itself
starting with the data marker), parsing the SSE-framed body whose data
line carries p yields the same value as parsing the bare JSON body p (and
that shared value is the json decode of p); and every body none of whose
scanned lines starts with the data marker is parsed as JSON whole. -/
theorem sse_framing_equivalence (jloads : String → Option JVal) :
    (∀ p : String, p.toList ≠ [] → Char.ofNat 10 ∉ p.toList →
        pyStripL p.toList = p.toList → listStartsWith dataMarker p.toList = false →
        (parseSseResponse jloads ("event: message\ndata: " ++ p ++ "\n\n") =
            parseSseResponse jloads p ∧
         parseSseResponse jloads p = jloads p)) ∧
    (∀ text : String,
        (∀ l ∈ splitLines (pyStripL text.toList), listStartsWith dataMarker l = false) →
        parseSseResponse jloads text = jloads text) := by
  constructor
  · intro p hne hnl hstrip hnd
    have hbare : parseSseResponse jloads p = jloads p := by
      unfold parseSseResponse
      rw [hstrip, splitLines_of_no_newline _ hnl]
      rw [List.find?_cons_of_neg _ (by simpa using hnd), List.find?_nil]
    refine ⟨?_, hbare⟩
    rw [hbare]
    unfold parseSseResponse
    have htl : ("event: message\ndata: " ++ p ++ "\n\n").toList =
        ("event: message\ndata: ").toList ++ p.toList ++ [Char.ofNat 10, Char.ofNat 10] := by
      rw [string_toList_append, string_toList_append]; rfl
    rw [htl, pyStripL_framed p.toList hne hstrip]
    have hev : ("event: message\ndata: ").toList =
        ("event: message").toList ++ Char.ofNat 10 :: dataMarker := by decide
    have hnl2 : Char.ofNat 10 ∉ dataMarker ++ p.toList := by
      intro hmem
      rcases List.mem_append.mp hmem with h | h
      · exact absurd h (by decide)
      · exact hnl h
    rw [hev, List.append_assoc, List.cons_append,
        splitLines_append_newline (("event: message").toList) (dataMarker ++ p.toList) (by decide),
        splitLines_of_no_newline _ hnl2]
    rw [List.find?_cons_of_neg _ (by decide),
        List.find?_cons_of_pos _ (listStartsWith_append_self _ _)]
    show jloads (String.mk ((dataMarker ++ p.toList).drop 6)) = jloads p
    have hdrop : (dataMarker ++ p.toList).drop 6 = p.toList := by
      simp [dataMarker]
    rw [hdrop, string_mk_toList]
  · intro text hall
    unfold parseSseResponse
    have hnone : (splitLines (pyStripL text.toList)).find?
        (fun l => listStartsWith dataMarker l) = none :=
      List.find?_eq_none.mpr (fun l hl => by simp [hall l hl])
    rw [hnone]

/-- Witness for C6 at the spec example payload. -/
theorem sse_framing_equivalence_witness :
    parseSseResponse jloadsStub
        ("event: message\ndata: " ++ "\x7b\"result\":\x7b\"tools\":[]\x7d\x7d" ++ "\n\n") =
      parseSseResponse jloadsStub ("\x7b\"result\":\x7b\"tools\":[]\x7d\x7d") ∧
    parseSseResponse jloadsStub ("\x7b\"x\":1\x7d") = jloadsStub ("\x7b\"x\":1\x7d") := by
  constructor
  · exact ((sse_framing_equivalence jloadsStub).1 _
      (by decide) (by decide) (by decide) (by decide)).1
  · exact (sse_framing_equivalence jloadsStub).2 _ (by decide)

/-- Claim C1: for an error-free parsed tools/call envelope, when the
result payload carries a content list whose first element is a dict with a
string text field, the returned value is the JSON decode of that text, or
the text wrapped as a result object when decoding fails; content that is
present but not list-shaped is stringified into a result object; and with
no content field the result object is returned verbatim. -/
theorem callTool_result_normalization (jloads : String → Option JVal)
    (fields : List (String × JVal)) (hne : jgetField fields "error" = none) :
    (∀ rf ff rest t, jgetField fields "result" = some (.jobj rf) →
        jgetField rf "content" = some (.jarr (.jobj ff :: rest)) →
        jgetField ff "text" = some (.jstr t) →
        callToolNormalize jloads (.jobj fields) =
          .ok ((jloads t).getD (.jobj [("result", .jstr t)]))) ∧
    (∀ rf c, jgetField fields "result" = some (.jobj rf) →
        jgetField rf "content" = some c → (∀ xs, c ≠ .jarr xs) →
        callToolNormalize jloads (.jobj fields) =
          .ok (.jobj [("result", .jstr (pyStr c))])) ∧
    (∀ rf, jgetField fields "result" = some (.jobj rf) →
        jgetField rf "content" = none →
        callToolNormalize jloads (.jobj fields) = .ok (.jobj rf)) := by
  refine ⟨?_, ?_, ?_⟩
  · intro rf ff rest t hres hcont htext
    simp only [callToolNormalize, pyContains, hne, Option.isSome_none, hres,
      Option.getD_some, hcont, htext]
    cases jloads t <;> simp
  · intro rf c hres hcont hnl
    simp only [callToolNormalize, pyContains, hne, Option.isSome_none, hres,
      Option.getD_some, hcont]
    cases c with
    | jarr xs => exact absurd rfl (hnl xs)
    | jnull => rfl
    | jbool b => rfl
    | jint n => rfl
    | jfloat x => rfl
    | jstr s => rfl
    | jobj fs => rfl
  · intro rf hres hcont
    simp only [callToolNormalize, pyContains, hne, Option.isSome_none, hres,
      Option.getD_some, hcont]

/-- Witness for C1 at the spec examples: a decodable text payload, an
undecodable one, non-list content, and an envelope without content. -/
theorem callTool_result_normalization_witness :
    callToolNormalize jloadsStub (.jobj [("result", .jobj [("content",
        .jarr [.jobj [("text", .jstr ("\x7b\"result\": 4\x7d"))]])])]) =
      .ok (.jobj [("result", .jint 4)]) ∧
    callToolNormalize jloadsStub (.jobj [("result", .jobj [("content",
        .jarr [.jobj [("text", .jstr ("done"))]])])]) =
      .ok (.jobj [("result", .jstr ("done"))]) ∧
    callToolNormalize jloadsStub (.jobj [("result", .jobj [("content", .jstr ("hi"))])]) =
      .ok (.jobj [("result", .jstr ("hi"))]) ∧
    callToolNormalize jloadsStub (.jobj [("result", .jobj [("x", .jint 1)])]) =
      .ok (.jobj [("x", .jint 1)]) := by
  refine ⟨?_, ?_, ?_, ?_⟩
  · exact (callTool_result_normalization jloadsStub [("result", .jobj [("content",
      .jarr [.jobj [("text", .jstr ("\x7b\"result\": 4\x7d"))]])])] rfl).1 _ _ _ _ rfl rfl rfl
  · exact (callTool_result_normalization jloadsStub [("result", .jobj [("content",
      .jarr [.jobj [("text", .jstr ("done"))]])])] rfl).1 _ _ _ _ rfl rfl rfl
  · exact (callTool_result_normalization jloadsStub [("result", .jobj [("content",
      .jstr ("hi"))])] rfl).2.1 _ _ rfl rfl (fun xs h => JVal.noConfusion h)
  · exact (callTool_result_normalization jloadsStub [("result", .jobj [("x", .jint 1)])]
      rfl).2.2 _ rfl rfl

/-- Counterexample to claim C2 as stated: an envelope whose top-level
error field is a bare JSON string makes call_tool raise (the attribute
access on the non-dict error value fails and is re-raised as
ToolExecutionError) instead of returning a failure-shaped result. -/
theorem callTool_error_envelope_cex :
    callToolNormalize jloadsNone (.jobj [("error", .jstr ("boom"))]) =
      .error .toolExecutionError := rfl

/-- Claim C2 as amended: when the top-level error field is a JSON object,
call_tool raises nothing and returns a failure-shaped result carrying the
error's message field (or the stringified error object when no message
field exists); when the error field is not an object, the attribute
access raises and call_tool fails with ToolExecutionError. -/
theorem callTool_error_envelope (jloads : String → Option JVal)
    (fields : List (String × JVal)) :
    (∀ efields, jgetField fields "error" = some (.jobj efields) →
        callToolNormalize jloads (.jobj fields) =
          .ok (.jobj [("error",
            (jgetField efields "message").getD (.jstr (pyStr (.jobj efields))))])) ∧
    (∀ e, jgetField fields "error" = some e → (∀ efs, e ≠ .jobj efs) →
        callToolNormalize jloads (.jobj fields) = .error .toolExecutionError) := by
  constructor
  · intro efields herr
    simp only [callToolNormalize, pyContains, herr, Option.isSome_some]
  · intro e herr hno
    simp only [callToolNormalize, pyContains, herr, Option.isSome_some]

/-- Witness for the amended C2: an error object with a message, one
without a message, and a non-object error value. -/
theorem callTool_error_envelope_witness :
    callToolNormalize jloadsNone (.jobj [("error",
        .jobj [("code", .jint (-32000)), ("message", .jstr ("Cannot divide by zero"))])]) =
      .ok (.jobj [("error", .jstr ("Cannot divide by zero"))]) ∧
    callToolNormalize jloadsNone (.jobj [("error", .jobj [("code", .jint 5)])]) =
      .ok (.jobj [("error", .jstr (pyStr (.jobj [("code", .jint 5)])))]) ∧
    callToolNormalize jloadsNone (.jobj [("error", .jarr [])]) =
      .error .toolExecutionError := by
  refine ⟨?_, ?_, ?_⟩
  · exact (callTool_error_envelope jloadsNone [("error",
      .jobj [("code", .jint (-32000)), ("message", .jstr ("Cannot divide by zero"))])]).1
      _ rfl
  · exact (callTool_error_envelope jloadsNone [("error", .jobj [("code", .jint 5)])]).1 _ rfl
  · exact (callTool_error_envelope jloadsNone [("error", .jarr [])]).2 _ rfl
      (fun efs h => JVal.noConfusion h)

/-- Counterexample to claim C5 as stated: the envelope with neither
result nor error is accepted silently — call_tool returns the defaulted
empty result object and list_tools returns an empty tool list, with no
protocol-violation failure. -/
theorem missing_result_accepted_cex :
    callToolNormalize jloadsNone (.jobj []) = .ok (.jobj []) ∧
    listToolsNormalize (.jobj []) = .ok [] := ⟨rfl, rfl⟩

/-- Claim C5 as amended: a well-formed envelope lacking both result and
error is silently accepted as a normal outcome — call_tool returns the
empty object that result defaults to, and list_tools returns (and caches)
an empty tool list. -/
theorem missing_result_accepted (jloads : String → Option JVal)
    (fields : List (String × JVal)) (hne : jgetField fields "error" = none)
    (hnr : jgetField fields "result" = none) :
    callToolNormalize jloads (.jobj fields) = .ok (.jobj []) ∧
    listToolsNormalize (.jobj fields) = .ok [] := by
  constructor
  · simp only [callToolNormalize, pyContains, hne, Option.isSome_none, hnr,
      Option.getD_none, jgetField]
  · simp only [listToolsNormalize, pyContains, hne, Option.isSome_none, hnr,
      Option.getD_none, jgetField, listToolsData, listToolEntries]

/-- Witness for the amended C5 at a realistic JSON-RPC envelope carrying
only protocol fields. -/
theorem missing_result_accepted_witness :
    callToolNormalize jloadsNone
        (.jobj [("jsonrpc", .jstr ("2.0")), ("id", .jint 3)]) = .ok (.jobj []) ∧
    listToolsNormalize (.jobj [("jsonrpc", .jstr ("2.0")), ("id", .jint 3)]) = .ok [] :=
  missing_result_accepted jloadsNone _ rfl rfl

/-- Claim C9: the divide tool returns a result payload with a divided by b
when both arguments are present and b is nonzero, returns the
divide-by-zero error payload (no exception, as the ValueError is caught)
when b is zero, and returns the missing-argument error payload when either
argument is absent. -/
theorem divide_tool_contract (a b : ℚ) (x : Option ℚ) :
    (b ≠ 0 → serverDivide (some a) (some b) =
        .jobj [("result", .jfloat (.finite (a / b)))]) ∧
    (b = 0 → serverDivide (some a) (some b) =
        .jobj [("error", .jstr "Cannot divide by zero")]) ∧
    serverDivide none x =
      .jobj [("error", .jstr "Both numbers are required for division")] ∧
    serverDivide x none =
      .jobj [("error", .jstr "Both numbers are required for division")] := by
  refine ⟨?_, ?_, ?_, ?_⟩
  · intro hb
    simp [serverDivide, calculatorCalculate, hb]
  · intro hb
    simp [serverDivide, calculatorCalculate, hb]
  · cases x <;> rfl
  · cases x <;> rfl

/-- Witness for C9: divide 10 by 0, 10 by 4, and calls with a missing
argument. -/
theorem divide_tool_contract_witness :
    serverDivide (some 10) (some 0) =
      .jobj [("error", .jstr "Cannot divide by zero")] ∧
    serverDivide (some 10) (some 4) =
      .jobj [("result", .jfloat (.finite (5 / 2)))] ∧
    serverDivide none (some 3) =
      .jobj [("error", .jstr "Both numbers are required for division")] ∧
    serverDivide (some 3) none =
      .jobj [("error", .jstr "Both numbers are required for division")] := by
  refine ⟨?_, ?_, ?_, ?_⟩
  · exact (divide_tool_contract 10 0 none).2.1 rfl
  · have h := (divide_tool_contract 10 4 none).1 (by norm_num)
    rw [h]
    norm_num
  · exact (divide_tool_contract 3 3 (some 3)).2.2.1
  · exact (divide_tool_contract 3 3 (some 3)).2.2.2

/-- Claim C8: argument coercion is a total deterministic map over the
argument dict that preserves the key list; a string value parseable by
int() becomes that integer, otherwise one parseable by float() becomes
that float, otherwise the string stays; non-string values pass through;
and the spec's example coerces as stated.  Totality is inherent: the
Python code catches both ValueErrors, and the model is a plain function
returning a dict, never an exception. -/
theorem coerce_arguments_spec :
    (∀ args : List (String × JVal),
        (coerceNumericArguments args).map Prod.fst = args.map Prod.fst) ∧
    (∀ s n, pyIntOfString s = some n → coerceValue (.jstr s) = .jint n) ∧
    (∀ s f, pyIntOfString s = none → pyFloatOfString s = some f →
        coerceValue (.jstr s) = .jfloat f) ∧
    (∀ s, pyIntOfString s = none → pyFloatOfString s = none →
        coerceValue (.jstr s) = .jstr s) ∧
    (∀ v : JVal, (∀ s, v ≠ .jstr s) → coerceValue v = v) ∧
    coerceNumericArguments
        [("a", .jstr "10"), ("b", .jstr "5.5"), ("c", .jstr "x")] =
      [("a", .jint 10), ("b", .jfloat (.finite (11 / 2))), ("c", .jstr "x")] := by
  refine ⟨?_, ?_, ?_, ?_, ?_, ?_⟩
  · intro args
    simp [coerceNumericArguments]
  · intro s n h
    simp [coerceValue, h]
  · intro s f hi hf
    simp [coerceValue, hi, hf]
  · intro s hi hf
    simp [coerceValue, hi, hf]
  · intro v hv
    cases v with
    | jstr s => exact absurd rfl (hv s)
    | jnull => rfl
    | jbool b => rfl
    | jint n => rfl
    | jfloat x => rfl
    | jarr xs => rfl
    | jobj fs => rfl
  · have hb0 : coerceValue (.jstr "5.5") = .jfloat (.finite
        ((digitsValue ['5'] : ℚ) + (digitsValue ['5'] : ℚ) / 10 ^ fracLen ['5'])) := rfl
    have hd : digitsValue ['5'] = 5 := by decide
    have hl : fracLen ['5'] = 1 := by decide
    rw [hd, hl] at hb0
    have hq : ((5 : ℕ) : ℚ) + ((5 : ℕ) : ℚ) / 10 ^ 1 = 11 / 2 := by norm_num
    rw [hq] at hb0
    have ha : coerceValue (.jstr "10") = .jint 10 := rfl
    have hc : coerceValue (.jstr "x") = .jstr "x" := rfl
    simp [coerceNumericArguments, ha, hb0, hc]

/-- Witness for C8, discharging the per-case hypotheses at the example
strings. -/
theorem coerce_arguments_spec_witness :
    coerceValue (.jstr "10") = .jint 10 ∧
    coerceValue (.jstr "5.5") = .jfloat (.finite (11 / 2)) ∧
    coerceValue (.jstr "x") = .jstr "x" ∧
    coerceValue (.jbool true) = .jbool true := by
  refine ⟨?_, ?_, ?_, ?_⟩
  · exact coerce_arguments_spec.2.1 "10" 10 (by decide)
  · have hb0 : pyFloatOfString "5.5" = some (.finite
        ((digitsValue ['5'] : ℚ) + (digitsValue ['5'] : ℚ) / 10 ^ fracLen ['5'])) := rfl
    have hd : digitsValue ['5'] = 5 := by decide
    have hl : fracLen ['5'] = 1 := by decide
    rw [hd, hl] at hb0
    have hq : ((5 : ℕ) : ℚ) + ((5 : ℕ) : ℚ) / 10 ^ 1 = 11 / 2 := by norm_num
    rw [hq] at hb0
    exact coerce_arguments_spec.2.2.1 "5.5" (.finite (11 / 2)) (by decide) hb0
  · exact coerce_arguments_spec.2.2.2.1 "x" (by decide) (by decide)
  · exact coerce_arguments_spec.2.2.2.2.1 (.jbool true) (fun s h => JVal.noConfusion h)

lemma transformProps_of_objs (pfields : List (String × JVal))
    (h : ∀ kv ∈ pfields, ∃ pf, kv.2 = JVal.jobj pf) :
    ∃ eps, transformProps pfields = .ok eps ∧
      List.Forall₂ (fun kv ev => ev.1 = kv.1 ∧ transformProp kv.1 kv.2 = .ok ev.2)
        pfields eps := by
  induction pfields with
  | nil => exact ⟨[], rfl, List.Forall₂.nil⟩
  | cons kv rest ih =>
    obtain ⟨pf, hpf⟩ := h kv (List.mem_cons_self kv rest)
    obtain ⟨eps, heps, hrel⟩ := ih (fun x hx => h x (List.mem_cons_of_mem kv hx))
    obtain ⟨nm, sch⟩ := kv
    simp only at hpf
    subst hpf
    refine ⟨(nm, if (jgetField pf "description").isSome then JVal.jobj pf
        else JVal.jobj (pf ++ [("description", .jstr ("The " ++ nm ++ " parameter"))])) :: eps,
      ?_, ?_⟩
    · simp only [transformProps, transformProp, heps]
      by_cases hdesc : (jgetField pf "description").isSome
      · simp [hdesc]
      · simp [hdesc]
    · refine List.Forall₂.cons ⟨rfl, ?_⟩ hrel
      by_cases hdesc : (jgetField pf "description").isSome
      · simp [transformProp, hdesc]
      · simp [transformProp, hdesc]

/-- Claim C7: to_ollama_format emits, for each registered tool, the
function wrapper object with the tool's name, (defaulted) description and
transformed parameters; a falsy or absent inputSchema yields the fixed
empty parameters object; otherwise each property schema is copied, a
description "The <name> parameter" is appended exactly to properties
lacking one while properties carrying one are left unmodified, and
required is copied verbatim, defaulting to the empty list. -/
theorem to_function_schema_spec :
    (∀ tf nv params, jgetField tf "name" = some nv →
        transformInputSchema ((jgetField tf "inputSchema").getD (.jobj [])) = .ok params →
        toOllamaTool (.jobj tf) = .ok (.jobj
          [("type", .jstr "function"),
           ("function", .jobj
             [("name", nv),
              ("description", (jgetField tf "description").getD (.jstr "")),
              ("parameters", params)])])) ∧
    (∀ sch, pyFalsy sch = true → transformInputSchema sch =
        .ok (.jobj [("type", .jstr "object"), ("properties", .jobj []),
          ("required", .jarr [])])) ∧
    (∀ nm pf, (jgetField pf "description").isSome = true →
        transformProp nm (.jobj pf) = .ok (.jobj pf)) ∧
    (∀ nm pf, jgetField pf "description" = none →
        transformProp nm (.jobj pf) = .ok (.jobj
          (pf ++ [("description", .jstr ("The " ++ nm ++ " parameter"))]))) ∧
    (∀ fields pfields, pyFalsy (.jobj fields) = false →
        jgetField fields "properties" = some (.jobj pfields) →
        (∀ kv ∈ pfields, ∃ pf, kv.2 = JVal.jobj pf) →
        ∃ eps, transformProps pfields = .ok eps ∧
          List.Forall₂ (fun kv ev => ev.1 = kv.1 ∧ transformProp kv.1 kv.2 = .ok ev.2)
            pfields eps ∧
          transformInputSchema (.jobj fields) = .ok (.jobj
            [("type", .jstr "object"), ("properties", .jobj eps),
             ("required", (jgetField fields "required").getD (.jarr []))])) := by
  refine ⟨?_, ?_, ?_, ?_, ?_⟩
  · intro tf nv params hname hparams
    simp only [toOllamaTool, hname, hparams]
  · intro sch hf
    simp only [transformInputSchema, hf, if_true]
  · intro nm pf hdesc
    simp [transformProp, hdesc]
  · intro nm pf hdesc
    simp [transformProp, hdesc]
  · intro fields pfields hf hprops hobjs
    obtain ⟨eps, heps, hrel⟩ := transformProps_of_objs pfields hobjs
    refine ⟨eps, heps, hrel, ?_⟩
    simp only [transformInputSchema, hf, hprops, heps, Bool.false_eq_true, if_false,
      Option.getD_some]

/-- Witness for C7: a tool whose schema has one described and one
undescribed property, and an empty input schema. -/
theorem to_function_schema_spec_witness :
    toOllamaTool (.jobj [("name", .jstr "add"), ("description", .jstr "Add"),
        ("inputSchema", .jobj [("type", .jstr "object"),
          ("properties", .jobj [("a", .jobj [("type", .jstr "number")]),
            ("b", .jobj [("type", .jstr "number"), ("description", .jstr "second")])]),
          ("required", .jarr [.jstr "a", .jstr "b"])])]) =
      .ok (.jobj [("type", .jstr "function"),
        ("function", .jobj [("name", .jstr "add"), ("description", .jstr "Add"),
          ("parameters", .jobj [("type", .jstr "object"),
            ("properties", .jobj
              [("a", .jobj [("type", .jstr "number"),
                 ("description", .jstr "The a parameter")]),
               ("b", .jobj [("type", .jstr "number"), ("description", .jstr "second")])]),
            ("required", .jarr [.jstr "a", .jstr "b"])])])]) ∧
    transformInputSchema (.jobj []) =
      .ok (.jobj [("type", .jstr "object"), ("properties", .jobj []),
        ("required", .jarr [])]) ∧
    transformProp "a" (.jobj [("type", .jstr "number")]) =
      .ok (.jobj [("type", .jstr "number"), ("description", .jstr "The a parameter")]) ∧
    transformProp "b" (.jobj [("type", .jstr "number"), ("description", .jstr "second")]) =
      .ok (.jobj [("type", .jstr "number"), ("description", .jstr "second")]) := by
  refine ⟨?_, ?_, ?_, ?_⟩
  · exact to_function_schema_spec.1 [("name", .jstr "add"), ("description", .jstr "Add"),
      ("inputSchema", .jobj [("type", .jstr "object"),
        ("properties", .jobj [("a", .jobj [("type", .jstr "number")]),
          ("b", .jobj [("type", .jstr "number"), ("description", .jstr "second")])]),
        ("required", .jarr [.jstr "a", .jstr "b"])])] _ _ rfl rfl
  · exact to_function_schema_spec.2.1 (.jobj []) rfl
  · exact to_function_schema_spec.2.2.2.1 "a" [("type", .jstr "number")] rfl
  · exact to_function_schema_spec.2.2.1 "b"
      [("type", .jstr "number"), ("description", .jstr "second")] rfl

/-- Counterexample to claim C3 as stated: with a fully successful
initialize exchange (2xx status, session header present, error-free
parsed body), a raised transport error while sending the
notifications/initialized message makes connect fail with
MCPConnectionError; the same exchange followed by any notification
response lets connect succeed. -/
theorem connect_notification_cex :
    (connectFn jloadsStub initClientState
        [.response 200 (some "sess") ("\x7b\x7d"), .raised]).res =
      .error .mcpConnectionError ∧
    (connectFn jloadsStub initClientState
        [.response 200 (some "sess") ("\x7b\x7d"), .response 500 none ""]).res =
      .ok () := ⟨rfl, rfl⟩

/-- Claim C3 as amended: the notifications/initialized POST sits inside
the same try block as the rest of connect, so a raised transport error
there is fatal — connect fails with ConnectionError; connect does not
check the notification response's status, so any response (of any
status) to the notification leaves connect successful. -/
theorem connect_notification_fatal (jloads : String → Option JVal)
    (s : ClientState) (st : Nat) (sid : String) (body : String) (env : JVal)
    (w : List PostOutcome)
    (hst : statusOk st = true) (hsid : sid ≠ "")
    (hbody : parseSseResponse jloads body = some env)
    (herr : pyContains "error" env = some false) :
    (connectFn jloads s (.response st (some sid) body :: .raised :: w)).res =
      .error .mcpConnectionError ∧
    (∀ st2 hdr2 body2, (connectFn jloads s
        (.response st (some sid) body :: .response st2 hdr2 body2 :: w)).res = .ok ()) := by
  constructor
  · simp only [connectFn, hst, if_true, hsid, if_neg, hbody, herr]
    simp
  · intro st2 hdr2 body2
    simp only [connectFn, hst, if_true, hsid, if_neg, hbody, herr]
    simp

/-- Witness for the amended C3 at a concrete successful initialize
exchange. -/
theorem connect_notification_fatal_witness :
    statusOk 200 = true ∧
    (connectFn jloadsStub initClientState
        [.response 200 (some "sess") ("\x7b\x7d"), .raised]).res =
      .error .mcpConnectionError ∧
    (connectFn jloadsStub initClientState
        [.response 200 (some "sess") ("\x7b\x7d"), .response 204 none ""]).res =
      .ok () := by
  have h := connect_notification_fatal jloadsStub initClientState 200 "sess" ("\x7b\x7d")
    (.jobj []) [] rfl (by decide) rfl rfl
  exact ⟨rfl, h.1, h.2 204 none ""⟩

/-- Claim C10: disconnect on a connected client nulls exactly the HTTP
client handle and the session id, leaving the request-id counter and the
tools cache untouched; after a subsequent successful connect, list_tools
answers from the cache surviving the previous session — consuming no POST
and attaching no request id — and the id counter has continued from its
previous value (connect used id requestId + 1). -/
theorem disconnect_frame_and_cache_reuse (s : ClientState) (hcl : s.client = true) :
    (disconnectFn s).client = false ∧
    (disconnectFn s).sessionId = none ∧
    (disconnectFn s).toolsCache = s.toolsCache ∧
    (disconnectFn s).requestId = s.requestId ∧
    (∀ (jloads : String → Option JVal) (cache : List JVal) (st : Nat)
        (sid body : String) (env : JVal) (st2 : Nat) (hdr2 : Option String)
        (body2 : String) (w : List PostOutcome),
      s.toolsCache = some cache → statusOk st = true → sid ≠ "" →
      parseSseResponse jloads body = some env → pyContains "error" env = some false →
      connectFn jloads (disconnectFn s)
          (.response st (some sid) body :: .response st2 hdr2 body2 :: w) =
        OpResult.mk (.ok ())
          (ClientState.mk true (some sid) (some cache) (s.requestId + 1)) w
          [s.requestId + 1] ∧
      listToolsFn jloads (ClientState.mk true (some sid) (some cache) (s.requestId + 1)) w =
        OpResult.mk (.ok cache)
          (ClientState.mk true (some sid) (some cache) (s.requestId + 1)) w []) := by
  obtain ⟨cl, sess, tc, rid⟩ := s
  simp only at hcl
  subst hcl
  refine ⟨rfl, rfl, rfl, rfl, ?_⟩
  intro jloads cache st sid body env st2 hdr2 body2 w hcache hst hsid hbody herr
  simp only at hcache
  subst hcache
  constructor
  · simp only [connectFn, disconnectFn, hst, if_true, hsid, if_neg, hbody, herr]
    simp [hsid]
  · simp only [listToolsFn, notConnected]
    simp [hsid]

/-- Witness for C10: a connected client holding a one-tool cache and
counter value 7 is disconnected and reconnected; list_tools then answers
from the old cache without touching the script, and ids continue at 8. -/
theorem disconnect_frame_and_cache_reuse_witness :
    (disconnectFn (ClientState.mk true (some "old")
        (some [.jobj [("name", .jstr "add")]]) 7)).client = false ∧
    connectFn jloadsStub
        (disconnectFn (ClientState.mk true (some "old")
          (some [.jobj [("name", .jstr "add")]]) 7))
        [.response 200 (some "new") ("\x7b\x7d"), .response 202 none ""] =
      OpResult.mk (.ok ())
        (ClientState.mk true (some "new") (some [.jobj [("name", .jstr "add")]]) 8) [] [8] ∧
    listToolsFn jloadsStub
        (ClientState.mk true (some "new") (some [.jobj [("name", .jstr "add")]]) 8) [] =
      OpResult.mk (.ok [.jobj [("name", .jstr "add")]])
        (ClientState.mk true (some "new") (some [.jobj [("name", .jstr "add")]]) 8) [] [] := by
  have h := disconnect_frame_and_cache_reuse
    (ClientState.mk true (some "old") (some [.jobj [("name", .jstr "add")]]) 7) rfl
  have h5 := h.2.2.2.2 jloadsStub [.jobj [("name", .jstr "add")]] 200 "new" ("\x7b\x7d")
    (.jobj []) 202 none "" [] rfl rfl (by decide) rfl rfl
  exact ⟨h.1, h5.1, h5.2⟩

lemma connectFn_ids (jloads : String → Option JVal) (s : ClientState)
    (w : List PostOutcome) :
    (connectFn jloads s w).ids = [s.requestId + 1] ∧
    (connectFn jloads s w).state.requestId = s.requestId + 1 := by
  constructor <;> (unfold connectFn; repeat' split) <;> rfl

lemma disconnectFn_requestId (s : ClientState) :
    (disconnectFn s).requestId = s.requestId := by
  unfold disconnectFn
  split <;> rfl

lemma listToolsFn_ids (jloads : String → Option JVal) (s : ClientState)
    (w : List PostOutcome) :
    ((listToolsFn jloads s w).ids = [] ∧
      (listToolsFn jloads s w).state.requestId = s.requestId) ∨
    ((listToolsFn jloads s w).ids = [s.requestId + 1] ∧
      (listToolsFn jloads s w).state.requestId = s.requestId + 1) := by
  unfold listToolsFn
  split
  · exact Or.inl ⟨rfl, rfl⟩
  · split
    · exact Or.inl ⟨rfl, rfl⟩
    · refine Or.inr ?_
      constructor <;> (repeat' split) <;> rfl

lemma callToolFn_ids (jloads : String → Option JVal) (nm : String) (args : JVal)
    (s : ClientState) (w : List PostOutcome) :
    ((callToolFn jloads nm args s w).ids = [] ∧
      (callToolFn jloads nm args s w).state.requestId = s.requestId) ∨
    ((callToolFn jloads nm args s w).ids = [s.requestId + 1] ∧
      (callToolFn jloads nm args s w).state.requestId = s.requestId + 1) := by
  unfold callToolFn
  split
  · exact Or.inl ⟨rfl, rfl⟩
  · refine Or.inr ?_
    constructor <;> (repeat' split) <;> rfl

lemma applyOp_ids (jloads : String → Option JVal) (op : ClientOp) (s : ClientState)
    (w : List PostOutcome) :
    ∃ n, (applyOp jloads op s w).2.2 = List.range' (s.requestId + 1) n ∧
      (applyOp jloads op s w).1.requestId = s.requestId + n := by
  cases op with
  | connectOp =>
    obtain ⟨h1, h2⟩ := connectFn_ids jloads s w
    exact ⟨1, by simpa [applyOp] using h1, by simpa [applyOp] using h2⟩
  | disconnectOp =>
    exact ⟨0, by simp [applyOp, List.range'], by
      simpa [applyOp] using disconnectFn_requestId s⟩
  | listToolsOp =>
    rcases listToolsFn_ids jloads s w with ⟨h1, h2⟩ | ⟨h1, h2⟩
    · exact ⟨0, by simpa [applyOp, List.range'] using h1, by simpa [applyOp] using h2⟩
    · exact ⟨1, by simpa [applyOp] using h1, by simpa [applyOp] using h2⟩
  | callToolOp nm args =>
    rcases callToolFn_ids jloads nm args s w with ⟨h1, h2⟩ | ⟨h1, h2⟩
    · exact ⟨0, by simpa [applyOp, List.range'] using h1, by simpa [applyOp] using h2⟩
    · exact ⟨1, by simpa [applyOp] using h1, by simpa [applyOp] using h2⟩

lemma runOps_cons (jloads : String → Option JVal) (op : ClientOp) (ops : List ClientOp)
    (s : ClientState) (w : List PostOutcome) :
    runOps jloads (op :: ops) s w = RunResult.mk
      (runOps jloads ops (applyOp jloads op s w).1 (applyOp jloads op s w).2.1).state
      (runOps jloads ops (applyOp jloads op s w).1 (applyOp jloads op s w).2.1).script
      ((applyOp jloads op s w).2.2 ++
        (runOps jloads ops (applyOp jloads op s w).1 (applyOp jloads op s w).2.1).ids) :=
  rfl

lemma runOps_ids (jloads : String → Option JVal) (ops : List ClientOp) :
    ∀ (s : ClientState) (w : List PostOutcome),
    ∃ n, (runOps jloads ops s w).ids = List.range' (s.requestId + 1) n ∧
      (runOps jloads ops s w).state.requestId = s.requestId + n := by
  induction ops with
  | nil => intro s w; exact ⟨0, rfl, rfl⟩
  | cons op ops ih =>
    intro s w
    obtain ⟨n1, h1, h2⟩ := applyOp_ids jloads op s w
    obtain ⟨n2, h3, h4⟩ := ih (applyOp jloads op s w).1 (applyOp jloads op s w).2.1
    refine ⟨n1 + n2, ?_, ?_⟩
    · rw [runOps_cons]
      show (applyOp jloads op s w).2.2 ++
        (runOps jloads ops (applyOp jloads op s w).1 (applyOp jloads op s w).2.1).ids =
        List.range' (s.requestId + 1) (n1 + n2)
      rw [h1, h3, h2]
      have hc : s.requestId + n1 + 1 = s.requestId + 1 + n1 := by omega
      rw [hc]
      have hap := List.range'_append_1 (s.requestId + 1) n1 n2
      rw [Nat.add_comm n2 n1] at hap
      exact hap
    · rw [runOps_cons]
      show (runOps jloads ops (applyOp jloads op s w).1
          (applyOp jloads op s w).2.1).state.requestId = s.requestId + (n1 + n2)
      rw [h4, h2]
      omega

/-- Claim C4 as amended: over the lifetime of one client instance, the
request ids attached to outbound requests form the strictly increasing
sequence 1, 2, 3, ... with none reused; the counter is not reset by
disconnect or by a later connect, so the ids of a session opened after a
disconnect continue from the previous counter value instead of restarting
at 1.  Stated over every operation sequence and every transport script
from a fresh client: the id log is an initial segment of 1, 2, 3, ... and
the counter equals the number of ids handed out. -/
theorem request_ids_lifetime_sequence (jloads : String → Option JVal)
    (ops : List ClientOp) (w : List PostOutcome) :
    (runOps jloads ops initClientState w).ids =
      List.range' 1 (runOps jloads ops initClientState w).ids.length ∧
    (runOps jloads ops initClientState w).state.requestId =
      (runOps jloads ops initClientState w).ids.length := by
  obtain ⟨n, h1, h2⟩ := runOps_ids jloads ops initClientState w
  have hlen : (runOps jloads ops initClientState w).ids.length = n := by
    rw [h1, List.length_range']
  refine ⟨?_, ?_⟩
  · rw [hlen, h1]
    norm_num [initClientState]
  · rw [hlen, h2]
    norm_num [initClientState]

/-- Counterexample to claim C4 as stated: the trace connect, disconnect,
connect attaches ids 1 then 2 — the initialize request of the session
opened after the disconnect carries id 2, not 1, so the counter does not
reset with the new session. -/
theorem request_id_reset_cex :
    (runOps jloadsStub [.connectOp, .disconnectOp, .connectOp] initClientState
      [.response 200 (some "s1") ("\x7b\x7d"), .response 202 none "",
       .response 200 (some "s2") ("\x7b\x7d"), .response 202 none ""]).ids = [1, 2] ∧
    (2 : Nat) ≠ 1 := ⟨rfl, by decide⟩
